import Mathlib

/-!
Shallow embedding of the execution job lifecycle controller of the qknot
repository (`src/src/components/Dashboard.tsx`, component `ExecutionResults`):
braid-word validation, job submission, the bounded poll loop, cooperative
cancellation, the persisted pending-job snapshot and the resume path.

Network I/O is modelled by an environment supplying the server's answer to
each request (`readErrorDetail` is folded into the detail string the
environment delivers for a non-ok response).  React `useState` fields and the
`localStorage`-backed snapshot slot are modelled as fields of an explicit
controller state record; the `cancelRequestedRef` ref, which a concurrent
cancel click may set between awaits, is modelled as an oracle giving its value
at each loop-iteration boundary.
-/

namespace QKnot

/-- `RuntimeChannelSelection` from Dashboard.tsx. -/
inductive RuntimeChannelSelection where
  | auto
  | ibm_quantum_platform
  | ibm_cloud
  | ibm_quantum
deriving Repr, DecidableEq

/-- `PendingJobSnapshot` from Dashboard.tsx. -/
structure PendingJobSnapshot where
  job_id : String
  backend_name : String
  runtime_channel : RuntimeChannelSelection
  runtime_instance : Option String
deriving Repr, DecidableEq

/-- `ClosureMethod` from types.ts. -/
inductive ClosureMethod where
  | trace
  | plat
deriving Repr, DecidableEq

/-- One entry of the `counts` array of an `ExperimentResult` (types.ts). -/
structure CountEntry where
  name : String
  probability : Rat
deriving Repr, DecidableEq

/-- `KnotCircuitSummary` from types.ts. -/
structure KnotCircuitSummary where
  depth : Nat
  size : Nat
  width : Nat
  num_qubits : Nat
  num_clbits : Nat
  two_qubit_gate_count : Nat
  measurement_count : Nat
  operation_counts : List (String × Nat)
  signature : String
deriving Repr, DecidableEq

/-- `KnotStatus` from types.ts. -/
inductive KnotStatus where
  | pending
  | verified
  | compiled
  | executed
deriving Repr, DecidableEq

/-- `KnotData` from types.ts (fields the controller reads). -/
structure KnotData where
  id : String
  name : String
  dowkerNotation : String
  braidWord : String
  rootOfUnity : Nat
  status : KnotStatus
  jonesPolynomial : Option String
  circuitSummary : Option KnotCircuitSummary
deriving Repr, DecidableEq

/-- `ExecutionSettings` from types.ts. -/
structure ExecutionSettings where
  shots : Nat
  optimizationLevel : Nat
  closureMethod : ClosureMethod
deriving Repr, DecidableEq

/-- The union `ExperimentJobStatus | ExperimentResult` of types.ts, as one
record with optional fields; a payload is an `ExperimentResult` exactly when
its `counts` field is present (`Array.isArray(counts)` in the source). -/
structure Payload where
  job_id : String
  backend : Option String := none
  runtime_channel_used : Option String := none
  runtime_instance_used : Option String := none
  closure_method : Option ClosureMethod := none
  circuit_summary : Option KnotCircuitSummary := none
  status : String
  detail : Option String := none
  counts : Option (List CountEntry) := none
  expectation_value : Option Rat := none
  jones_polynomial : Option String := none
deriving Repr, DecidableEq

/-- `isExperimentResultPayload` from Dashboard.tsx: `Array.isArray(counts)`. -/
def isExperimentResultPayload (p : Payload) : Bool :=
  p.counts.isSome

/-- `isCompiledOrLater` from Dashboard.tsx. -/
def isCompiledOrLater (status : Option KnotStatus) : Bool :=
  decide (status = some KnotStatus.compiled) || decide (status = some KnotStatus.executed)

/-- `MAX_SHOTS` constant from Dashboard.tsx. -/
def MAX_SHOTS : Nat := 100000

/-- `MAX_POLL_ATTEMPTS` constant (default of the `maxPollAttempts` prop). -/
def MAX_POLL_ATTEMPTS : Nat := 180

/-- `IN_PROGRESS_JOB_STATUSES` from Dashboard.tsx. -/
def IN_PROGRESS_JOB_STATUSES : List String :=
  ["INITIALIZING", "QUEUED", "RUNNING", "VALIDATING", "SUBMITTED"]

/-- `FAILED_JOB_STATUSES` from Dashboard.tsx. -/
def FAILED_JOB_STATUSES : List String :=
  ["FAILED", "ERROR", "CANCELLED", "CANCELED"]

/-- JS `String.prototype.trim`, computed on the underlying character list
(whitespace per `Char.isWhitespace`). -/
def jsTrim (s : String) : String :=
  String.mk (((s.data.dropWhile Char.isWhitespace).reverse.dropWhile Char.isWhitespace).reverse)

/-- The maximal runs of non-whitespace characters of a character list, in
order: the tokens `split(/\s+/)` yields on a trimmed string (the accumulator
holds the current run reversed). -/
def wsTokensAux : List Char → List Char → List (List Char)
  | acc, [] => if acc = [] then [] else [acc.reverse]
  | acc, c :: cs =>
    if c.isWhitespace then
      if acc = [] then wsTokensAux [] cs else acc.reverse :: wsTokensAux [] cs
    else
      wsTokensAux (c :: acc) cs

/-- JS `Array.prototype.join(sep)`. -/
def joinSep (sep : String) : List String → String
  | [] => ""
  | [x] => x
  | x :: xs => x ++ sep ++ joinSep sep xs

/-- Digits of a generator index per the regex group `([1-9]\d*)`: nonempty,
all decimal digits, no leading zero; returns its numeric value. -/
def digitsToNat? (cs : List Char) : Option Nat :=
  match cs with
  | [] => none
  | c :: rest =>
    if ('1' ≤ c ∧ c ≤ '9') ∧ rest.all (fun d => decide ('0' ≤ d ∧ d ≤ '9')) then
      some ((c :: rest).foldl (fun acc d => acc * 10 + (d.toNat - '0'.toNat)) 0)
    else
      none

/-- `BRAID_TOKEN_REGEX` match from Dashboard.tsx: a token of shape
`s<index>` or `s<index>^-1` per `/^s([1-9]\d*)(\^-1)?$/`; returns the
captured generator index. -/
def braidTokenGenerator (token : String) : Option Nat :=
  let cs := token.data
  let core := if ['^', '-', '1'].isSuffixOf cs then cs.take (cs.length - 3) else cs
  match core with
  | 's' :: rest => digitsToNat? rest
  | _ => none

/-- The token list produced by `normalizedBraidWord.split(/\s+/)` on a trimmed
string: maximal nonempty runs of non-whitespace characters. -/
def splitTokens (s : String) : List String :=
  (wsTokensAux [] s.data).map String.mk

/-- The first loop of `validateBraidWordForExecution`: scan the tokens in
order, failing on the first token the regex rejects, otherwise collecting
every captured generator index. -/
def collectGenerators : List String → Except String (List Nat)
  | [] => Except.ok []
  | t :: ts =>
    match braidTokenGenerator t with
    | none => Except.error t
    | some g =>
      match collectGenerators ts with
      | Except.error bad => Except.error bad
      | Except.ok gs => Except.ok (g :: gs)

/-- The names of the generators missing from `[1, max generators]`, in
ascending order, as built by `validateBraidWordForExecution`. -/
def missingGeneratorNames (generators : List Nat) : List String :=
  let maxGenerator := generators.foldl max 0
  (((List.range maxGenerator).map (fun i => i + 1)).filter
    (fun g => decide (g ∉ generators))).map (fun g => s!"s{g}")

/-- The contiguity-failure message of `validateBraidWordForExecution`
(its two concatenated template strings). -/
def contiguityMessage (maxGenerator : Nat) (missingGenerators : List String) : String :=
  "Braid word must use contiguous generators from s1 through s" ++ toString maxGenerator
    ++ ". " ++ "Missing: " ++ joinSep ", " missingGenerators ++ "."

/-- `validateBraidWordForExecution` from Dashboard.tsx: `null` (`none`) on
success, otherwise the first failing rule's message. -/
def validateBraidWordForExecution (braidWord : Option String) : Option String :=
  let normalizedBraidWord := jsTrim (braidWord.getD "")
  if normalizedBraidWord = "" then
    some "Braid word is required before execution."
  else
    let tokens := splitTokens normalizedBraidWord
    match collectGenerators tokens with
    | Except.error token =>
      some s!"Unsupported braid token \x27{token}\x27. Use tokens like s1 or s3^-1."
    | Except.ok generators =>
      if tokens.length < 3 then
        some "Braid word must contain at least three generators before execution."
      else if generators.dedup.length < 2 then
        some "Braid word must include at least two distinct generators before execution."
      else
        let maxGenerator := generators.foldl max 0
        let missingGenerators := missingGeneratorNames generators
        if missingGenerators ≠ [] then
          some (contiguityMessage maxGenerator missingGenerators)
        else
          none

/-- `pat` occurs as a contiguous substring of `s` (used to state that an
error message names a generator), computed on the underlying character
lists. -/
def hasSubstring (s pat : String) : Bool :=
  (List.range (s.data.length + 1)).any (fun i => pat.data.isPrefixOf (s.data.drop i))

/-- `readRuntimePayload` from Dashboard.tsx: the optional runtime fields of a
request body — the channel is omitted when `auto`, the instance is omitted
when blank after trimming. -/
def readRuntimePayload (runtimeChannel : RuntimeChannelSelection) (runtimeInstance : String) :
    Option RuntimeChannelSelection × Option String :=
  let ch := if runtimeChannel = RuntimeChannelSelection.auto then none else some runtimeChannel
  let inst := if jsTrim runtimeInstance = "" then none else some (jsTrim runtimeInstance)
  (ch, inst)

/-- Body of a `/api/jobs/poll` request as built in `pollRuntimeJob`. -/
structure PollRequest where
  job_id : String
  runtime_channel : Option RuntimeChannelSelection
  runtime_instance : Option String
deriving Repr, DecidableEq

/-- Body of a `/api/jobs/submit` request as built in `handleExecute`. -/
structure SubmitRequest where
  backend_name : String
  braid_word : Option String
  shots : Nat
  optimization_level : Nat
  closure_method : ClosureMethod
  runtime_channel : Option RuntimeChannelSelection
  runtime_instance : Option String
deriving Repr, DecidableEq

/-- The server's answer to one network request: a non-ok HTTP response with
its status code and the detail string `readErrorDetail` resolves from the
body, or an ok response carrying a parsed JSON payload. -/
inductive NetResponse where
  | httpError (code : Nat) (detail : String)
  | ok (payload : Payload)
deriving Repr, DecidableEq

/-- The error message thrown for a non-ok response
(`Request validation failed` on 422, `Server error` otherwise). -/
def httpErrorMessage (code : Nat) (detail : String) : String :=
  if code = 422 then s!"Request validation failed: {detail}"
  else s!"Server error ({code}): {detail}"

/-- JS `detail || fallback`: the detail string when present and nonempty,
the fallback otherwise. -/
def detailOr (detail : Option String) (fallback : String) : String :=
  match detail with
  | some d => if d = "" then fallback else d
  | none => fallback

/-- JS `value || fallback` on an optional string field. -/
def orElseStr (o : Option String) (fallback : String) : String :=
  match o with
  | some s => if s = "" then fallback else s
  | none => fallback

/-- The message of the failed-terminal throw of `pollRuntimeJob`
(the fallback when the payload carries no usable detail). -/
def runtimeFailedMessage (s : String) : String :=
  "Runtime job failed with status " ++ s ++ "."

/-- The message of the unexpected-status throw of `pollRuntimeJob`
(the fallback when the payload carries no usable detail). -/
def unexpectedStatusMessage (s : String) : String :=
  "Unexpected runtime job status " ++ s ++ "."

/-- The message of the timeout throw of `pollRuntimeJob`. -/
def timedOutMessage : String :=
  "Timed out waiting for the IBM runtime job to complete."

/-- The `statusDetail` text set when the timeout branch saves its snapshot. -/
def savedPendingMessage (jid : String) : String :=
  "Saved pending job " ++ jid ++ ". You can resume polling later."

/-- How one call of `pollRuntimeJob` ends: each constructor is one of the
function's syntactic exits — the `POLL_CANCELLED_ERROR` throw, the non-ok
response throw, the `COMPLETED`-with-result return, the failed-status throw,
the unexpected-status throw, and the timeout throw after the loop. -/
inductive PollOutcome where
  | cancelled
  | pollHttpError (msg : String)
  | completed
  | jobFailed (msg : String)
  | unexpectedStatus (msg : String)
  | timedOut
deriving Repr, DecidableEq

/-- The error message a caller surfaces for a poll outcome; `none` for
success and for the local-cancellation signal, which the callers swallow. -/
def outcomeError : PollOutcome → Option String
  | PollOutcome.cancelled => none
  | PollOutcome.pollHttpError m => some m
  | PollOutcome.completed => none
  | PollOutcome.jobFailed m => some m
  | PollOutcome.unexpectedStatus m => some m
  | PollOutcome.timedOut => some timedOutMessage

/-- The arguments of `pollRuntimeJob`, plus the `targetBackend` prop its
timeout branch falls back to. -/
structure PollArgs where
  jobId : String
  backendNameHint : String
  targetBackend : String
  runtimeChannelForJob : RuntimeChannelSelection
  runtimeInstanceForJob : String
deriving Repr, DecidableEq

/-- The environment of one controller operation: the answer the server gives
to the submit request and to the poll request of each attempt, the value of
`cancelRequestedRef.current` observed at each attempt's iteration boundary,
and the `maxPollAttempts` prop. -/
structure PollEnv where
  submitResponse : NetResponse
  responses : Nat → NetResponse
  cancel : Nat → Bool
  maxPollAttempts : Nat

/-- The controller's state: the React `useState` fields of
`ExecutionResults`, with `pendingResumeJob` also standing for the
`localStorage` snapshot slot (every write in scope goes through
`persistPendingJob` / `clearPendingJob`, which update both together), plus
instrumentation recording the network requests issued and the number of
`onExecutionComplete` callback invocations. -/
structure CtrlState where
  runtimeChannel : RuntimeChannelSelection
  runtimeInstance : String
  shotsInput : String
  isExecuting : Bool := false
  isCancelling : Bool := false
  error : Option String := none
  statusDetail : Option String := none
  shotInputError : Option String := none
  jobStatus : Option Payload := none
  result : Option Payload := none
  pendingResumeJob : Option PendingJobSnapshot := none
  completionCalls : Nat := 0
  submitRequests : List SubmitRequest := []
  pollRequests : List PollRequest := []

/-- The poll request body built on each attempt of `pollRuntimeJob`. -/
def mkPollRequest (cfg : PollArgs) : PollRequest :=
  let rp := readRuntimePayload cfg.runtimeChannelForJob cfg.runtimeInstanceForJob
  { job_id := cfg.jobId, runtime_channel := rp.1, runtime_instance := rp.2 }

/-- The `ExperimentJobStatus` view stored by `setJobStatus` in the
success-terminal branch of `pollRuntimeJob` (the object literal keeping
`job_id`, `backend`, channel/instance used and `status`). -/
def resultStatusView (p : Payload) : Payload :=
  { job_id := p.job_id
    backend := p.backend
    runtime_channel_used := p.runtime_channel_used
    runtime_instance_used := p.runtime_instance_used
    status := p.status }

/-- The `timeoutSnapshot` persisted when `pollRuntimeJob` exhausts its
attempts. -/
def timeoutSnapshot (cfg : PollArgs) : PendingJobSnapshot :=
  { job_id := cfg.jobId
    backend_name := if cfg.backendNameHint = "" then cfg.targetBackend else cfg.backendNameHint
    runtime_channel := cfg.runtimeChannelForJob
    runtime_instance :=
      if jsTrim cfg.runtimeInstanceForJob = "" then none
      else some (jsTrim cfg.runtimeInstanceForJob) }

/-- The attempt loop of `pollRuntimeJob`, by recursion on the remaining
attempt budget; the first `Nat` is the absolute attempt index (used to read
the cancellation flag and the server's answer for that attempt). -/
def pollLoopAux (cfg : PollArgs) (env : PollEnv) : Nat → Nat → CtrlState → CtrlState × PollOutcome
  | _, 0, st =>
    ({ st with
        pendingResumeJob := some (timeoutSnapshot cfg)
        statusDetail := some (savedPendingMessage cfg.jobId) },
      PollOutcome.timedOut)
  | attempt, rem + 1, st =>
    if env.cancel attempt then
      (st, PollOutcome.cancelled)
    else
      let st := { st with pollRequests := st.pollRequests ++ [mkPollRequest cfg] }
      match env.responses attempt with
      | NetResponse.httpError code detail =>
        (st, PollOutcome.pollHttpError (httpErrorMessage code detail))
      | NetResponse.ok p =>
        if (isExperimentResultPayload p) = true ∧ p.status = "COMPLETED" then
          ({ st with
              jobStatus := some (resultStatusView p)
              result := some p
              statusDetail := none
              pendingResumeJob := none
              completionCalls := st.completionCalls + 1 },
            PollOutcome.completed)
        else
          let st := { st with jobStatus := some p }
          if p.status ∈ FAILED_JOB_STATUSES then
            ({ st with pendingResumeJob := none },
              PollOutcome.jobFailed (detailOr p.detail (runtimeFailedMessage p.status)))
          else if p.status ∉ IN_PROGRESS_JOB_STATUSES then
            ({ st with pendingResumeJob := none },
              PollOutcome.unexpectedStatus (detailOr p.detail (unexpectedStatusMessage p.status)))
          else
            pollLoopAux cfg env (attempt + 1) rem st

/-- `pollRuntimeJob` from Dashboard.tsx: run the attempt loop from attempt 0
with the full budget. -/
def pollRuntimeJob (cfg : PollArgs) (env : PollEnv) (st : CtrlState) : CtrlState × PollOutcome :=
  pollLoopAux cfg env 0 env.maxPollAttempts st

/-- The props of `ExecutionResults` that the submit/resume paths read. -/
structure ExecProps where
  activeKnot : Option KnotData
  targetBackend : String
  executionSettings : ExecutionSettings

/-- The submit request body built in `handleExecute`. -/
def mkSubmitRequest (p : ExecProps) (st : CtrlState) : SubmitRequest :=
  let rp := readRuntimePayload st.runtimeChannel st.runtimeInstance
  { backend_name := p.targetBackend
    braid_word := p.activeKnot.map (fun k => jsTrim k.braidWord)
    shots := p.executionSettings.shots
    optimization_level := p.executionSettings.optimizationLevel
    closure_method := p.executionSettings.closureMethod
    runtime_channel := rp.1
    runtime_instance := rp.2 }

/-- The `catch`/`finally` tail shared by `handleExecute`'s exits: surface the
error message when there is one (the `POLL_CANCELLED_ERROR` path surfaces
nothing), then reset the executing/cancelling flags. -/
def finishExecute (st : CtrlState) (err : Option String) : CtrlState :=
  let st :=
    match err with
    | some m => { st with error := some m }
    | none => st
  { st with isExecuting := false, isCancelling := false }

/-- The `pendingSnapshot` persisted by `handleExecute` right after a
successful submission (step 5 of the submit path). -/
def execSnapshot (p : ExecProps) (st : CtrlState) (submittedJob : Payload) : PendingJobSnapshot :=
  { job_id := submittedJob.job_id
    backend_name := orElseStr submittedJob.backend p.targetBackend
    runtime_channel := st.runtimeChannel
    runtime_instance := if jsTrim st.runtimeInstance = "" then none else some (jsTrim st.runtimeInstance) }

/-- The arguments `handleExecute` passes to `pollRuntimeJob`. -/
def execCfg (p : ExecProps) (st : CtrlState) (submittedJob : Payload) : PollArgs :=
  { jobId := submittedJob.job_id
    backendNameHint := orElseStr submittedJob.backend p.targetBackend
    targetBackend := p.targetBackend
    runtimeChannelForJob := st.runtimeChannel
    runtimeInstanceForJob := st.runtimeInstance }

/-- The tail of `handleExecute` after the signature check: store the
submitted job status, require a job id, persist the pending snapshot and
enter the poll loop. -/
def handleExecuteAfterSignature (p : ExecProps) (env : PollEnv) (st : CtrlState)
    (submittedJob : Payload) : CtrlState :=
  let st := { st with jobStatus := some submittedJob }
  if submittedJob.job_id = "" then
    finishExecute st (some "The backend did not return a runtime job identifier.")
  else
    let st := { st with pendingResumeJob := some (execSnapshot p st submittedJob) }
    let res := pollRuntimeJob (execCfg p st submittedJob) env st
    finishExecute res.1 (outcomeError res.2)

/-- `handleExecute` from Dashboard.tsx: guard checks, submit request,
signature consistency check, job-id check, snapshot persistence, poll loop,
and the catch/finally error surfacing. -/
def handleExecute (p : ExecProps) (env : PollEnv) (st : CtrlState) : CtrlState :=
  if ¬ isCompiledOrLater (p.activeKnot.map KnotData.status) then
    { st with error := some "Generate the circuit after verification before executing the job." }
  else if st.shotInputError.isSome ∨ jsTrim st.shotsInput = "" then
    { st with error := some s!"Shots must be a whole number between 1 and {MAX_SHOTS}." }
  else
    match validateBraidWordForExecution (p.activeKnot.map KnotData.braidWord) with
    | some msg => { st with error := some msg }
    | none =>
      let st := { st with isExecuting := true, isCancelling := false, error := none, statusDetail := none }
      let st := { st with submitRequests := st.submitRequests ++ [mkSubmitRequest p st] }
      match env.submitResponse with
      | NetResponse.httpError code detail =>
        finishExecute st (some (httpErrorMessage code detail))
      | NetResponse.ok submittedJob =>
        let generatedSignature :=
          p.activeKnot.bind (fun k => k.circuitSummary.map KnotCircuitSummary.signature)
        let submittedSignature := submittedJob.circuit_summary.map KnotCircuitSummary.signature
        match generatedSignature, submittedSignature with
        | some g, some s =>
          if g ≠ "" ∧ s ≠ "" ∧ g ≠ s then
            finishExecute st
              (some ("Generated circuit signature " ++ g ++ " does not match submitted signature "
                ++ s ++ "."))
          else
            handleExecuteAfterSignature p env st submittedJob
        | _, _ => handleExecuteAfterSignature p env st submittedJob

/-- The `disabled` condition of the execute button
(`isExecuting || !canExecute || shotInputError !== null`). -/
def executeButtonDisabled (p : ExecProps) (st : CtrlState) : Bool :=
  st.isExecuting || !(isCompiledOrLater (p.activeKnot.map KnotData.status))
    || st.shotInputError.isSome

/-- A click on the execute button: a disabled button fires no handler, an
enabled one runs `handleExecute`. -/
def clickExecute (p : ExecProps) (env : PollEnv) (st : CtrlState) : CtrlState :=
  if executeButtonDisabled p st then st else handleExecute p env st

/-- The arguments `handleResumePendingJob` passes to `pollRuntimeJob`: every
field of the poll configuration comes from the persisted snapshot, none from
the controller's current UI state. -/
def resumeCfg (p : ExecProps) (snap : PendingJobSnapshot) : PollArgs :=
  { jobId := snap.job_id
    backendNameHint := snap.backend_name
    targetBackend := p.targetBackend
    runtimeChannelForJob := snap.runtime_channel
    runtimeInstanceForJob := snap.runtime_instance.getD "" }

/-- `handleResumePendingJob` from Dashboard.tsx: no-op without a snapshot;
otherwise rehydrate the runtime-selection state from the snapshot and
re-enter the poll loop against the stored job id, with no submit request. -/
def handleResumePendingJob (p : ExecProps) (env : PollEnv) (st : CtrlState) : CtrlState :=
  match st.pendingResumeJob with
  | none => st
  | some snap =>
    let st := { st with
      runtimeChannel := snap.runtime_channel
      runtimeInstance := snap.runtime_instance.getD ""
      jobStatus := some
        { job_id := snap.job_id, backend := some snap.backend_name, status := "SUBMITTED" }
      error := none
      statusDetail := none
      isExecuting := true }
    let res := pollRuntimeJob (resumeCfg p snap) env st
    let st :=
      match outcomeError res.2 with
      | some m => { res.1 with error := some m }
      | none => res.1
    { st with isExecuting := false }

/-- `visibleError` from the component body: `shotInputError ?? error`. -/
def visibleError (st : CtrlState) : Option String :=
  match st.shotInputError with
  | some e => some e
  | none => st.error

/-- `showingPreviousResult` from the component body:
`hasResult && visibleError !== null`. -/
def showingPreviousResult (st : CtrlState) : Bool :=
  st.result.isSome && (visibleError st).isSome

/-- The job-id badge text of the results panel (`data-testid="job-id-display"`). -/
def jobIdDisplay (st : CtrlState) : String :=
  match st.result with
  | some r =>
    if showingPreviousResult st then "Previous Result Job ID: " ++ r.job_id
    else "Job ID: " ++ r.job_id
  | none =>
    match st.jobStatus with
    | some js => "Job ID: " ++ js.job_id ++ " (" ++ js.status ++ ")"
    | none => "Job ID: not available"

/-- The Jones-polynomial panel text shown when a result exists
(`result.jones_polynomial`; the empty string when the payload lacks one). -/
def jonesPolynomialDisplay (st : CtrlState) : Option String :=
  st.result.map (fun r => r.jones_polynomial.getD "")

/-! ### Concrete fixtures (used to evaluate the model on closed runs) -/

/-- A compiled knot with a valid braid word and no generated summary. -/
def exampleKnot : KnotData :=
  { id := "knot-1"
    name := "trefoil"
    dowkerNotation := "4 6 2"
    braidWord := "s1 s2 s1"
    rootOfUnity := 5
    status := KnotStatus.compiled
    jonesPolynomial := none
    circuitSummary := none }

/-- A circuit summary whose signature is `sig-a`. -/
def exampleSummaryA : KnotCircuitSummary :=
  { depth := 7, size := 12, width := 3, num_qubits := 3, num_clbits := 2,
    two_qubit_gate_count := 4, measurement_count := 2,
    operation_counts := [("cx", 4), ("rz", 6)], signature := "sig-a" }

/-- The same summary with signature `sig-b`. -/
def exampleSummaryB : KnotCircuitSummary :=
  { exampleSummaryA with signature := "sig-b" }

/-- `exampleKnot` with a generated artifact whose signature is `sig-a`. -/
def sigKnot : KnotData :=
  { exampleKnot with circuitSummary := some exampleSummaryA }

/-- Execution settings fixture. -/
def exampleSettings : ExecutionSettings :=
  { shots := 1024, optimizationLevel := 1, closureMethod := ClosureMethod.trace }

/-- Props fixture targeting `ibm_kyiv`. -/
def exampleProps : ExecProps :=
  { activeKnot := some exampleKnot, targetBackend := "ibm_kyiv",
    executionSettings := exampleSettings }

/-- Props fixture whose knot carries the `sig-a` artifact. -/
def sigProps : ExecProps :=
  { exampleProps with activeKnot := some sigKnot }

/-- A fresh controller state with valid shots input. -/
def exampleState : CtrlState :=
  { runtimeChannel := RuntimeChannelSelection.auto, runtimeInstance := "", shotsInput := "1024" }

/-- An in-progress status record. -/
def queuedPayload : Payload :=
  { job_id := "job-1", backend := some "ibm_kyiv", status := "QUEUED" }

/-- An in-progress status record with status `RUNNING`. -/
def runningPayload : Payload :=
  { queuedPayload with status := "RUNNING" }

/-- A full terminal-success result payload. -/
def completedPayload : Payload :=
  { job_id := "job-1", backend := some "ibm_kyiv", status := "COMPLETED",
    counts := some [{ name := "00", probability := (1 : Rat) }],
    expectation_value := some (1 : Rat),
    jones_polynomial := some "V(t) = 1.000t^-4 + t^-3 + t^-1" }

/-- A bare `COMPLETED` status record with no counts array. -/
def bareCompletedPayload : Payload :=
  { job_id := "job-1", backend := some "ibm_kyiv", status := "COMPLETED" }

/-- A status record outside every classification set, with a detail. -/
def pausedPayload : Payload :=
  { job_id := "job-1", backend := some "ibm_kyiv", status := "PAUSED",
    detail := some "Job is paused." }

/-- A submit answer echoing the `sig-b` signature. -/
def sigSubmitJob : Payload :=
  { queuedPayload with circuit_summary := some exampleSummaryB }

/-- Poll-loop arguments fixture. -/
def exampleCfg : PollArgs :=
  { jobId := "job-1", backendNameHint := "ibm_kyiv", targetBackend := "ibm_kyiv",
    runtimeChannelForJob := RuntimeChannelSelection.auto, runtimeInstanceForJob := "" }

/-- A server that accepts the submission and answers every poll `QUEUED`,
with a budget of 3 attempts and no cancellation. -/
def inProgressEnv : PollEnv :=
  { submitResponse := NetResponse.ok queuedPayload
    responses := fun _ => NetResponse.ok queuedPayload
    cancel := fun _ => false
    maxPollAttempts := 3 }

/-- A server answering the poll sequence [queued, running, completed]. -/
def completeSeqEnv : PollEnv :=
  { submitResponse := NetResponse.ok queuedPayload
    responses := fun i =>
      if i = 0 then NetResponse.ok queuedPayload
      else if i = 1 then NetResponse.ok runningPayload
      else NetResponse.ok completedPayload
    cancel := fun _ => false
    maxPollAttempts := 5 }

/-- `inProgressEnv` with the cancellation flag raised from attempt 1 on. -/
def cancelEnv : PollEnv :=
  { inProgressEnv with cancel := fun i => decide (1 ≤ i) }

/-- A server answering every poll with the out-of-taxonomy `PAUSED` record. -/
def pausedEnv : PollEnv :=
  { submitResponse := NetResponse.ok queuedPayload
    responses := fun _ => NetResponse.ok pausedPayload
    cancel := fun _ => false
    maxPollAttempts := 5 }

/-- A server answering every poll with a bare `COMPLETED` record. -/
def bareEnv : PollEnv :=
  { pausedEnv with responses := fun _ => NetResponse.ok bareCompletedPayload }

/-- A server echoing the mismatching `sig-b` signature at submission. -/
def sigEnv : PollEnv :=
  { pausedEnv with submitResponse := NetResponse.ok sigSubmitJob }

/-- A snapshot persisted by an earlier session. -/
def exampleSnapshot : PendingJobSnapshot :=
  { job_id := "job-42", backend_name := "ibm_osaka",
    runtime_channel := RuntimeChannelSelection.ibm_cloud,
    runtime_instance := some "hub/group/project" }

/-- A reloaded controller state: the snapshot is present while the UI fields
hold freshly-entered values that differ from it. -/
def resumeState : CtrlState :=
  { exampleState with
    pendingResumeJob := some exampleSnapshot
    runtimeChannel := RuntimeChannelSelection.ibm_quantum
    runtimeInstance := "ui-typed" }

/-- A server answering [queued, completed] to the resumed polls. -/
def resumeEnv : PollEnv :=
  { submitResponse := NetResponse.ok queuedPayload
    responses := fun i =>
      if i = 0 then NetResponse.ok queuedPayload else NetResponse.ok completedPayload
    cancel := fun _ => false
    maxPollAttempts := 5 }

/-- A controller state with a job in flight. -/
def busyState : CtrlState :=
  { exampleState with isExecuting := true, jobStatus := some queuedPayload }

/-- A controller state holding a previously obtained successful result. -/
def resultState : CtrlState :=
  { exampleState with result := some completedPayload }

/-! ### Lemmas about the poll loop -/

/-- An in-progress status is in none of the other classification sets. -/
theorem inProgress_status_facts (s : String) (h : s ∈ IN_PROGRESS_JOB_STATUSES) :
    s ∉ FAILED_JOB_STATUSES ∧ s ≠ "COMPLETED" := by
  fin_cases h <;> exact ⟨by decide, by decide⟩

/-- Unfolding the timeout exit of the loop (attempt budget exhausted). -/
theorem pollLoopAux_zero (cfg : PollArgs) (env : PollEnv) (attempt : Nat) (st : CtrlState) :
    pollLoopAux cfg env attempt 0 st
      = ({ st with
            pendingResumeJob := some (timeoutSnapshot cfg)
            statusDetail := some (savedPendingMessage cfg.jobId) },
          PollOutcome.timedOut) := by
  simp [pollLoopAux]

/-- Unfolding one iteration that observes the cancellation flag. -/
theorem pollLoopAux_cancel_step (cfg : PollArgs) (env : PollEnv) (attempt rem : Nat)
    (st : CtrlState) (hc : env.cancel attempt = true) :
    pollLoopAux cfg env attempt (rem + 1) st = (st, PollOutcome.cancelled) := by
  simp [pollLoopAux, hc]

/-- Unfolding one iteration whose poll response is terminal success (a
`COMPLETED` payload carrying a counts array). -/
theorem pollLoopAux_completed_step (cfg : PollArgs) (env : PollEnv) (attempt rem : Nat)
    (st : CtrlState) (q : Payload) (hc : env.cancel attempt = false)
    (hr : env.responses attempt = NetResponse.ok q)
    (hcounts : q.counts.isSome = true) (hstatus : q.status = "COMPLETED") :
    pollLoopAux cfg env attempt (rem + 1) st
      = ({ st with
            pollRequests := st.pollRequests ++ [mkPollRequest cfg]
            jobStatus := some (resultStatusView q)
            result := some q
            statusDetail := none
            pendingResumeJob := none
            completionCalls := st.completionCalls + 1 },
          PollOutcome.completed) := by
  simp [pollLoopAux, hc, hr, isExperimentResultPayload, hcounts, hstatus]

/-- Unfolding one iteration whose poll response carries a failed-terminal
status. -/
theorem pollLoopAux_failed_step (cfg : PollArgs) (env : PollEnv) (attempt rem : Nat)
    (st : CtrlState) (q : Payload) (hc : env.cancel attempt = false)
    (hr : env.responses attempt = NetResponse.ok q)
    (hq : q.status ∈ FAILED_JOB_STATUSES) :
    pollLoopAux cfg env attempt (rem + 1) st
      = ({ st with
            pollRequests := st.pollRequests ++ [mkPollRequest cfg]
            jobStatus := some q
            pendingResumeJob := none },
          PollOutcome.jobFailed (detailOr q.detail (runtimeFailedMessage q.status))) := by
  have hne : q.status ≠ "COMPLETED" := by
    intro hC
    rw [hC] at hq
    simp [FAILED_JOB_STATUSES] at hq
  simp [pollLoopAux, hc, hr, isExperimentResultPayload, hne, hq]

/-- Unfolding one iteration whose poll response is neither terminal success,
nor failed-terminal, nor in-progress. -/
theorem pollLoopAux_unexpected_step (cfg : PollArgs) (env : PollEnv) (attempt rem : Nat)
    (st : CtrlState) (q : Payload) (hc : env.cancel attempt = false)
    (hr : env.responses attempt = NetResponse.ok q)
    (hterm : ¬ (q.counts.isSome = true ∧ q.status = "COMPLETED"))
    (hfail : q.status ∉ FAILED_JOB_STATUSES)
    (hprog : q.status ∉ IN_PROGRESS_JOB_STATUSES) :
    pollLoopAux cfg env attempt (rem + 1) st
      = ({ st with
            pollRequests := st.pollRequests ++ [mkPollRequest cfg]
            jobStatus := some q
            pendingResumeJob := none },
          PollOutcome.unexpectedStatus (detailOr q.detail (unexpectedStatusMessage q.status))) := by
  simp [pollLoopAux, hc, hr, isExperimentResultPayload, hterm, hfail, hprog]

/-- Unfolding one iteration whose poll response is in-progress: the loop
records the request and the payload and moves to the next attempt. -/
theorem pollLoopAux_inProgress_step (cfg : PollArgs) (env : PollEnv) (attempt rem : Nat)
    (st : CtrlState) (q : Payload) (hc : env.cancel attempt = false)
    (hr : env.responses attempt = NetResponse.ok q)
    (hq : q.status ∈ IN_PROGRESS_JOB_STATUSES) :
    pollLoopAux cfg env attempt (rem + 1) st
      = pollLoopAux cfg env (attempt + 1) rem
          { st with
            pollRequests := st.pollRequests ++ [mkPollRequest cfg]
            jobStatus := some q } := by
  obtain ⟨hfail, hne⟩ := inProgress_status_facts q.status hq
  simp [pollLoopAux, hc, hr, isExperimentResultPayload, hne, hfail, hq]

/-- A run of `k` cancellation-free in-progress answers advances the loop `k`
attempts, appending exactly one poll request per attempt and touching nothing
else of the state but the displayed job status. -/
theorem pollLoopAux_inProgress_steps (cfg : PollArgs) (env : PollEnv) :
    ∀ (k attempt rem : Nat) (st : CtrlState),
    (∀ i, i < k → env.cancel (attempt + i) = false ∧
      ∃ q, env.responses (attempt + i) = NetResponse.ok q ∧
        q.status ∈ IN_PROGRESS_JOB_STATUSES) →
    ∃ js, pollLoopAux cfg env attempt (rem + k) st
      = pollLoopAux cfg env (attempt + k) rem
          { st with
            pollRequests := st.pollRequests ++ List.replicate k (mkPollRequest cfg)
            jobStatus := js } := by
  intro k
  induction k with
  | zero =>
    intro attempt rem st _
    exact ⟨st.jobStatus, by simp⟩
  | succ k ih =>
    intro attempt rem st h
    obtain ⟨hc, q, hr, hq⟩ := by
      have h0 := h 0 (Nat.succ_pos k)
      simpa using h0
    have hstep := pollLoopAux_inProgress_step cfg env attempt (rem + k) st q hc hr hq
    have hrw : rem + (k + 1) = (rem + k) + 1 := by omega
    obtain ⟨js, hrest⟩ := ih (attempt + 1) rem
      { st with pollRequests := st.pollRequests ++ [mkPollRequest cfg], jobStatus := some q }
      (by
        intro i hi
        have := h (i + 1) (by omega)
        have harith : attempt + (i + 1) = attempt + 1 + i := by omega
        rw [harith] at this
        exact this)
    refine ⟨js, ?_⟩
    rw [hrw, hstep, hrest]
    have harith2 : attempt + 1 + k = attempt + (k + 1) := by omega
    rw [harith2]
    congr 1
    simp [List.replicate_succ]

/-- A run in which the server answers every attempt with an in-progress
status and cancellation is never requested exhausts the whole attempt
budget, issues exactly one poll request per attempt, persists the timeout
snapshot and ends in the timeout exit. -/
theorem pollLoopAux_all_inProgress (cfg : PollArgs) (env : PollEnv) (n : Nat) (st : CtrlState)
    (h : ∀ i, i < n → env.cancel i = false ∧
      ∃ q, env.responses i = NetResponse.ok q ∧ q.status ∈ IN_PROGRESS_JOB_STATUSES) :
    ∃ js, pollLoopAux cfg env 0 n st
      = ({ st with
            pollRequests := st.pollRequests ++ List.replicate n (mkPollRequest cfg)
            jobStatus := js
            pendingResumeJob := some (timeoutSnapshot cfg)
            statusDetail := some (savedPendingMessage cfg.jobId) },
          PollOutcome.timedOut) := by
  obtain ⟨js, hsteps⟩ := pollLoopAux_inProgress_steps cfg env n 0 0 st (by simpa using h)
  refine ⟨js, ?_⟩
  rw [show (0 : Nat) + n = n from by omega] at hsteps
  rw [hsteps, pollLoopAux_zero]

/-- A run of `k` cancellation-free in-progress answers followed by a
terminal-success answer stops the loop right there: `k + 1` poll requests,
result stored, snapshot cleared and the completion exit taken. -/
theorem pollLoopAux_completes_after (cfg : PollArgs) (env : PollEnv) (k n : Nat)
    (st : CtrlState) (q : Payload)
    (hpre : ∀ i, i < k → env.cancel i = false ∧
      ∃ r, env.responses i = NetResponse.ok r ∧ r.status ∈ IN_PROGRESS_JOB_STATUSES)
    (hck : env.cancel k = false)
    (hrk : env.responses k = NetResponse.ok q)
    (hqc : q.counts.isSome = true)
    (hqs : q.status = "COMPLETED")
    (hkn : k < n) :
    pollLoopAux cfg env 0 n st
      = ({ st with
            pollRequests := st.pollRequests ++ List.replicate (k + 1) (mkPollRequest cfg)
            jobStatus := some (resultStatusView q)
            result := some q
            statusDetail := none
            pendingResumeJob := none
            completionCalls := st.completionCalls + 1 },
          PollOutcome.completed) := by
  obtain ⟨js, hsteps⟩ := pollLoopAux_inProgress_steps cfg env k 0 (n - k) st
    (by simpa using hpre)
  rw [show (n - k) + k = n from by omega] at hsteps
  rw [hsteps]
  obtain ⟨m, hm⟩ : ∃ m, n - k = m + 1 := ⟨n - k - 1, by omega⟩
  rw [hm]
  rw [pollLoopAux_completed_step cfg env (0 + k) m _ q (by simpa using hck) (by simpa using hrk)
    hqc hqs]
  simp [List.replicate_succ', List.append_assoc]

/-- The poll loop never touches the surfaced error, the shot-input error or
the submit-request log, and it only ever writes the stored result on the
completion exit. -/
theorem pollLoopAux_frame (cfg : PollArgs) (env : PollEnv) :
    ∀ (rem attempt : Nat) (st : CtrlState),
    (pollLoopAux cfg env attempt rem st).1.error = st.error ∧
    (pollLoopAux cfg env attempt rem st).1.shotInputError = st.shotInputError ∧
    (pollLoopAux cfg env attempt rem st).1.submitRequests = st.submitRequests ∧
    ((pollLoopAux cfg env attempt rem st).2 ≠ PollOutcome.completed →
      (pollLoopAux cfg env attempt rem st).1.result = st.result) := by
  intro rem
  induction rem with
  | zero =>
    intro attempt st
    simp [pollLoopAux]
  | succ rem ih =>
    intro attempt st
    by_cases hc : env.cancel attempt
    · simp [pollLoopAux, hc]
    · cases hr : env.responses attempt with
      | httpError code detail =>
        simp [pollLoopAux, hc, hr]
      | ok q =>
        by_cases h1 : isExperimentResultPayload q = true ∧ q.status = "COMPLETED"
        · simp [pollLoopAux, hc, hr, h1]
        · by_cases h2 : q.status ∈ FAILED_JOB_STATUSES
          · simp [pollLoopAux, hc, hr, h1, h2]
          · by_cases h3 : q.status ∈ IN_PROGRESS_JOB_STATUSES
            · have h4 := ih (attempt + 1)
                { st with
                  pollRequests := st.pollRequests ++ [mkPollRequest cfg]
                  jobStatus := some q }
              simp only [pollLoopAux, hc, hr, if_false, Bool.false_eq_true] at h4 ⊢
              simpa [h1, h2, h3] using h4
            · simp [pollLoopAux, hc, hr, h1, h2, h3]

/-! ### Lemmas about the submit path -/

/-- When every guard of the submit path passes — circuit compiled, shots
valid, braid word valid, submission accepted with a job id and no signature
mismatch — `handleExecute` records the submit request, stores the submitted
job status, persists the pending snapshot and hands over to the poll loop. -/
theorem handleExecute_run (p : ExecProps) (env : PollEnv) (st : CtrlState)
    (submittedJob : Payload)
    (hknot : isCompiledOrLater (p.activeKnot.map KnotData.status) = true)
    (hshotErr : st.shotInputError = none)
    (hshots : jsTrim st.shotsInput ≠ "")
    (hvalid : validateBraidWordForExecution (p.activeKnot.map KnotData.braidWord) = none)
    (hsub : env.submitResponse = NetResponse.ok submittedJob)
    (hsig : ∀ g s,
      p.activeKnot.bind (fun k => k.circuitSummary.map KnotCircuitSummary.signature) = some g →
      submittedJob.circuit_summary.map KnotCircuitSummary.signature = some s →
      ¬ (g ≠ "" ∧ s ≠ "" ∧ g ≠ s))
    (hjid : submittedJob.job_id ≠ "") :
    handleExecute p env st =
      (fun res => finishExecute res.1 (outcomeError res.2))
        (pollRuntimeJob (execCfg p st submittedJob) env
          { st with
            isExecuting := true
            isCancelling := false
            error := none
            statusDetail := none
            submitRequests := st.submitRequests ++ [mkSubmitRequest p st]
            jobStatus := some submittedJob
            pendingResumeJob := some (execSnapshot p st submittedJob) }) := by
  rw [handleExecute]
  rw [hknot, hshotErr, hvalid, hsub]
  cases hgen : p.activeKnot.bind (fun k => k.circuitSummary.map KnotCircuitSummary.signature) with
  | none =>
    simp [hshots, hjid, handleExecuteAfterSignature, execSnapshot, execCfg, mkSubmitRequest]
  | some g =>
    cases hsubsig : submittedJob.circuit_summary.map KnotCircuitSummary.signature with
    | none =>
      simp [hshots, hjid, hsubsig, handleExecuteAfterSignature, execSnapshot, execCfg,
        mkSubmitRequest]
    | some s =>
      have hno := hsig g s hgen hsubsig
      simp [hshots, hjid, hno, hsubsig, handleExecuteAfterSignature, execSnapshot, execCfg,
        mkSubmitRequest]

/-- `orElseStr o d` is empty only when the fallback itself is empty. -/
theorem orElseStr_eq_empty {o : Option String} {d : String} (h : orElseStr o d = "") :
    d = "" := by
  cases o with
  | none => simpa [orElseStr] using h
  | some s =>
    by_cases hs : s = ""
    · simpa [orElseStr, hs] using h
    · simp [orElseStr, hs] at h

/-- The snapshot the timeout branch persists during a submit-path run is the
same record the submit path already persisted right after submission. -/
theorem timeoutSnapshot_execCfg (p : ExecProps) (st : CtrlState) (submittedJob : Payload) :
    timeoutSnapshot (execCfg p st submittedJob) = execSnapshot p st submittedJob := by
  have hb : (if orElseStr submittedJob.backend p.targetBackend = "" then p.targetBackend
      else orElseStr submittedJob.backend p.targetBackend)
      = orElseStr submittedJob.backend p.targetBackend := by
    by_cases h : orElseStr submittedJob.backend p.targetBackend = ""
    · rw [if_pos h, h]
      exact orElseStr_eq_empty h
    · rw [if_neg h]
  simp [timeoutSnapshot, execCfg, execSnapshot, hb]

/-- The timeout message never coincides with the generic failed-terminal
message, whatever status string the latter reports. -/
theorem timedOutMessage_ne_runtimeFailedMessage (s : String) :
    timedOutMessage ≠ runtimeFailedMessage s := by
  intro h
  have h2 := congrArg String.data h
  have h3 : ("Timed out waiting for the IBM runtime job to complete.").data
      = ("Runtime job failed with status ").data ++ (s.data ++ (".").data) := h2
  have h4 := congrArg List.head? h3
  simp at h4

/-- `handleResumePendingJob` with a stored snapshot rehydrates the runtime
selection from the snapshot, shows the job as `SUBMITTED` and hands over to
the poll loop configured entirely from the snapshot, issuing no submit
request. -/
theorem handleResumePendingJob_run (p : ExecProps) (env : PollEnv) (st : CtrlState)
    (snap : PendingJobSnapshot) (h : st.pendingResumeJob = some snap) :
    handleResumePendingJob p env st =
      (fun res =>
        (fun st2 => { st2 with isExecuting := false })
          (match outcomeError res.2 with
            | some m => { res.1 with error := some m }
            | none => res.1))
        (pollRuntimeJob (resumeCfg p snap) env
          { st with
            runtimeChannel := snap.runtime_channel
            runtimeInstance := snap.runtime_instance.getD ""
            jobStatus := some
              { job_id := snap.job_id, backend := some snap.backend_name, status := "SUBMITTED" }
            error := none
            statusDetail := none
            isExecuting := true }) := by
  rw [handleResumePendingJob, h]

/-! ### Claim theorems -/

/-- C1: a submit-path run against a server that answers every poll with an
in-progress status and is never cancelled issues exactly 1 submit request and
exactly `maxPollAttempts` poll requests, persists a fresh
`PendingJobSnapshot` recording the job id, the backend name and the runtime
channel/instance in effect, and surfaces the timeout error, which differs
from every generic server-reported job-failure message. -/
theorem submit_timeout_exhausts_budget (p : ExecProps) (env : PollEnv) (st : CtrlState)
    (submittedJob : Payload)
    (hknot : isCompiledOrLater (p.activeKnot.map KnotData.status) = true)
    (hshotErr : st.shotInputError = none)
    (hshots : jsTrim st.shotsInput ≠ "")
    (hvalid : validateBraidWordForExecution (p.activeKnot.map KnotData.braidWord) = none)
    (hsub : env.submitResponse = NetResponse.ok submittedJob)
    (hsig : ∀ g s,
      p.activeKnot.bind (fun k => k.circuitSummary.map KnotCircuitSummary.signature) = some g →
      submittedJob.circuit_summary.map KnotCircuitSummary.signature = some s →
      ¬ (g ≠ "" ∧ s ≠ "" ∧ g ≠ s))
    (hjid : submittedJob.job_id ≠ "")
    (hall : ∀ i, i < env.maxPollAttempts → env.cancel i = false ∧
      ∃ q, env.responses i = NetResponse.ok q ∧ q.status ∈ IN_PROGRESS_JOB_STATUSES) :
    (handleExecute p env st).submitRequests.length = st.submitRequests.length + 1 ∧
    (handleExecute p env st).pollRequests
      = st.pollRequests
        ++ List.replicate env.maxPollAttempts (mkPollRequest (execCfg p st submittedJob)) ∧
    (handleExecute p env st).pendingResumeJob
      = some
          { job_id := submittedJob.job_id
            backend_name := orElseStr submittedJob.backend p.targetBackend
            runtime_channel := st.runtimeChannel
            runtime_instance :=
              if jsTrim st.runtimeInstance = "" then none else some (jsTrim st.runtimeInstance) } ∧
    (handleExecute p env st).error = some timedOutMessage ∧
    (∀ s, timedOutMessage ≠ runtimeFailedMessage s) := by
  rw [handleExecute_run p env st submittedJob hknot hshotErr hshots hvalid hsub hsig hjid]
  obtain ⟨js, hloop⟩ := pollLoopAux_all_inProgress (execCfg p st submittedJob) env
    env.maxPollAttempts
    { st with
        isExecuting := true
        isCancelling := false
        error := none
        statusDetail := none
        submitRequests := st.submitRequests ++ [mkSubmitRequest p st]
        jobStatus := some submittedJob
        pendingResumeJob := some (execSnapshot p st submittedJob) } hall
  simp only [pollRuntimeJob] at hloop ⊢
  rw [hloop]
  refine ⟨?_, ?_, ?_, ?_, timedOutMessage_ne_runtimeFailedMessage⟩ <;>
    simp [finishExecute, outcomeError, timeoutSnapshot_execCfg, execSnapshot]

/-- C2: a submit-path run whose poll responses are the sequence
[`QUEUED`, `RUNNING`, `COMPLETED` with a full result payload] issues exactly
3 poll requests, stores the result, clears the pending snapshot, fires the
completion callback exactly once and surfaces no error. -/
theorem poll_sequence_queued_running_completed (p : ExecProps) (env : PollEnv) (st : CtrlState)
    (submittedJob q0 q1 r : Payload)
    (hknot : isCompiledOrLater (p.activeKnot.map KnotData.status) = true)
    (hshotErr : st.shotInputError = none)
    (hshots : jsTrim st.shotsInput ≠ "")
    (hvalid : validateBraidWordForExecution (p.activeKnot.map KnotData.braidWord) = none)
    (hsub : env.submitResponse = NetResponse.ok submittedJob)
    (hsig : ∀ g s,
      p.activeKnot.bind (fun k => k.circuitSummary.map KnotCircuitSummary.signature) = some g →
      submittedJob.circuit_summary.map KnotCircuitSummary.signature = some s →
      ¬ (g ≠ "" ∧ s ≠ "" ∧ g ≠ s))
    (hjid : submittedJob.job_id ≠ "")
    (hcancel : ∀ i, i < 3 → env.cancel i = false)
    (h0 : env.responses 0 = NetResponse.ok q0) (h0s : q0.status = "QUEUED")
    (h1 : env.responses 1 = NetResponse.ok q1) (h1s : q1.status = "RUNNING")
    (h2 : env.responses 2 = NetResponse.ok r)
    (h2c : r.counts.isSome = true) (h2s : r.status = "COMPLETED")
    (hmax : 3 ≤ env.maxPollAttempts) :
    (handleExecute p env st).pollRequests
      = st.pollRequests ++ List.replicate 3 (mkPollRequest (execCfg p st submittedJob)) ∧
    (handleExecute p env st).result = some r ∧
    (handleExecute p env st).pendingResumeJob = none ∧
    (handleExecute p env st).completionCalls = st.completionCalls + 1 ∧
    (handleExecute p env st).error = none := by
  rw [handleExecute_run p env st submittedJob hknot hshotErr hshots hvalid hsub hsig hjid]
  have hpre : ∀ i, i < 2 → env.cancel i = false ∧
      ∃ rr, env.responses i = NetResponse.ok rr ∧ rr.status ∈ IN_PROGRESS_JOB_STATUSES := by
    intro i hi
    interval_cases i
    · exact ⟨hcancel 0 (by omega), q0, h0, by rw [h0s]; decide⟩
    · exact ⟨hcancel 1 (by omega), q1, h1, by rw [h1s]; decide⟩
  simp only [pollRuntimeJob]
  rw [pollLoopAux_completes_after (execCfg p st submittedJob) env 2 env.maxPollAttempts _ r
    hpre (hcancel 2 (by omega)) h2 h2c h2s (by omega)]
  simp [finishExecute, outcomeError]

/-- C3: when both the locally generated artifact signature and the
server-echoed one are known (nonempty) and differ, `handleExecute` surfaces
the hard mismatch error and issues no poll request at all. -/
theorem signature_mismatch_blocks_polling (p : ExecProps) (env : PollEnv) (st : CtrlState)
    (submittedJob : Payload) (g s : String)
    (hknot : isCompiledOrLater (p.activeKnot.map KnotData.status) = true)
    (hshotErr : st.shotInputError = none)
    (hshots : jsTrim st.shotsInput ≠ "")
    (hvalid : validateBraidWordForExecution (p.activeKnot.map KnotData.braidWord) = none)
    (hsub : env.submitResponse = NetResponse.ok submittedJob)
    (hgen : p.activeKnot.bind (fun k => k.circuitSummary.map KnotCircuitSummary.signature)
      = some g)
    (hsubsig : submittedJob.circuit_summary.map KnotCircuitSummary.signature = some s)
    (hg : g ≠ "") (hs : s ≠ "") (hne : g ≠ s) :
    (handleExecute p env st).error
      = some ("Generated circuit signature " ++ g ++ " does not match submitted signature "
          ++ s ++ ".") ∧
    (handleExecute p env st).pollRequests = st.pollRequests ∧
    (handleExecute p env st).result = st.result ∧
    (handleExecute p env st).completionCalls = st.completionCalls := by
  rw [handleExecute]
  rw [hknot, hshotErr, hvalid, hsub]
  simp only [hgen, hsubsig]
  simp [hshots, hg, hs, hne, finishExecute]

/-- C7: resuming a persisted snapshot polls with the snapshot's stored job
id, runtime channel and runtime instance — whatever the controller's current
UI state holds — issues no submit request, and clears the snapshot when the
server eventually reports terminal success. -/
theorem resume_uses_snapshot_and_clears (p : ExecProps) (env : PollEnv) (st : CtrlState)
    (snap : PendingJobSnapshot) (k : Nat) (q : Payload)
    (hsnap : st.pendingResumeJob = some snap)
    (hpre : ∀ i, i < k → env.cancel i = false ∧
      ∃ r, env.responses i = NetResponse.ok r ∧ r.status ∈ IN_PROGRESS_JOB_STATUSES)
    (hck : env.cancel k = false)
    (hrk : env.responses k = NetResponse.ok q)
    (hqc : q.counts.isSome = true)
    (hqs : q.status = "COMPLETED")
    (hkn : k < env.maxPollAttempts) :
    (handleResumePendingJob p env st).submitRequests = st.submitRequests ∧
    (handleResumePendingJob p env st).pollRequests
      = st.pollRequests ++ List.replicate (k + 1) (mkPollRequest (resumeCfg p snap)) ∧
    mkPollRequest (resumeCfg p snap)
      = { job_id := snap.job_id
          runtime_channel :=
            (readRuntimePayload snap.runtime_channel (snap.runtime_instance.getD "")).1
          runtime_instance :=
            (readRuntimePayload snap.runtime_channel (snap.runtime_instance.getD "")).2 } ∧
    (handleResumePendingJob p env st).pendingResumeJob = none ∧
    (handleResumePendingJob p env st).result = some q ∧
    (handleResumePendingJob p env st).error = none := by
  rw [handleResumePendingJob_run p env st snap hsnap]
  simp only [pollRuntimeJob]
  rw [pollLoopAux_completes_after (resumeCfg p snap) env k env.maxPollAttempts _ q
    hpre hck hrk hqc hqs hkn]
  refine ⟨?_, ?_, ?_, ?_, ?_, ?_⟩ <;> simp [outcomeError, mkPollRequest, resumeCfg]

/-- C5 (amended): a poll response whose status lies outside the in-progress
set, the failed-terminal set and the success status stops the loop at that
very attempt — one poll request, no retry however much budget remains —
clears the pending snapshot, and raises an error carrying the
server-supplied detail when present and nonempty, otherwise the generic
unexpected-status message. -/
theorem unexpected_status_hard_failure (cfg : PollArgs) (env : PollEnv) (attempt rem : Nat)
    (st : CtrlState) (q : Payload)
    (hc : env.cancel attempt = false)
    (hr : env.responses attempt = NetResponse.ok q)
    (hprog : q.status ∉ IN_PROGRESS_JOB_STATUSES)
    (hfail : q.status ∉ FAILED_JOB_STATUSES)
    (hcomp : q.status ≠ "COMPLETED") :
    pollLoopAux cfg env attempt (rem + 1) st
      = ({ st with
            pollRequests := st.pollRequests ++ [mkPollRequest cfg]
            jobStatus := some q
            pendingResumeJob := none },
          PollOutcome.unexpectedStatus (detailOr q.detail (unexpectedStatusMessage q.status))) :=
  pollLoopAux_unexpected_step cfg env attempt rem st q hc hr
    (fun h => hcomp h.2) hfail hprog

/-- C10: a poll response with the success status `COMPLETED` but no counts
array is not treated as terminal success: no result is stored, the
completion callback does not fire, and the response falls through to the
unexpected-status exit, which clears the pending snapshot and raises an
error. -/
theorem completed_without_counts_is_unexpected (cfg : PollArgs) (env : PollEnv)
    (attempt rem : Nat) (st : CtrlState) (q : Payload)
    (hc : env.cancel attempt = false)
    (hr : env.responses attempt = NetResponse.ok q)
    (hs : q.status = "COMPLETED")
    (hcounts : q.counts = none) :
    pollLoopAux cfg env attempt (rem + 1) st
      = ({ st with
            pollRequests := st.pollRequests ++ [mkPollRequest cfg]
            jobStatus := some q
            pendingResumeJob := none },
          PollOutcome.unexpectedStatus (detailOr q.detail (unexpectedStatusMessage q.status))) ∧
    (pollLoopAux cfg env attempt (rem + 1) st).1.result = st.result ∧
    (pollLoopAux cfg env attempt (rem + 1) st).1.completionCalls = st.completionCalls := by
  have heq := pollLoopAux_unexpected_step cfg env attempt rem st q hc hr
    (by simp [hcounts]) (by rw [hs]; decide) (by rw [hs]; decide)
  refine ⟨heq, ?_, ?_⟩ <;> rw [heq]

/-- C9: while a job is in-flight (`isExecuting` with a tracked job status),
the execute control is disabled, so a submit attempt is rejected without any
effect — in particular no second submission starts. -/
theorem inflight_submit_rejected (p : ExecProps) (env : PollEnv) (st : CtrlState)
    (hexec : st.isExecuting = true) (_hjob : st.jobStatus.isSome = true) :
    clickExecute p env st = st ∧
    (clickExecute p env st).submitRequests = st.submitRequests := by
  have h : clickExecute p env st = st := by
    simp [clickExecute, executeButtonDisabled, hexec]
  exact ⟨h, by rw [h]⟩

/-- C6: when the cooperative cancellation flag is observed at the start of a
loop iteration, the loop aborts at that very boundary with the distinguished
cancelled-locally exit, leaving whatever state it was in untouched; the
submit path treats that exit as a silent stop — no error is surfaced and the
cancellation path writes no snapshot (the snapshot is exactly the one
persisted at submission). -/
theorem cancel_flag_silent_stop (p : ExecProps) (env : PollEnv) (st : CtrlState)
    (submittedJob : Payload) (k : Nat)
    (hknot : isCompiledOrLater (p.activeKnot.map KnotData.status) = true)
    (hshotErr : st.shotInputError = none)
    (hshots : jsTrim st.shotsInput ≠ "")
    (hvalid : validateBraidWordForExecution (p.activeKnot.map KnotData.braidWord) = none)
    (hsub : env.submitResponse = NetResponse.ok submittedJob)
    (hsig : ∀ g s,
      p.activeKnot.bind (fun k => k.circuitSummary.map KnotCircuitSummary.signature) = some g →
      submittedJob.circuit_summary.map KnotCircuitSummary.signature = some s →
      ¬ (g ≠ "" ∧ s ≠ "" ∧ g ≠ s))
    (hjid : submittedJob.job_id ≠ "")
    (hk : k < env.maxPollAttempts)
    (hpre : ∀ i, i < k → env.cancel i = false ∧
      ∃ q, env.responses i = NetResponse.ok q ∧ q.status ∈ IN_PROGRESS_JOB_STATUSES)
    (hck : env.cancel k = true) :
    (∀ (st2 : CtrlState) (rem : Nat),
      pollLoopAux (execCfg p st submittedJob) env k (rem + 1) st2
        = (st2, PollOutcome.cancelled)) ∧
    (handleExecute p env st).error = none ∧
    (handleExecute p env st).pendingResumeJob = some (execSnapshot p st submittedJob) ∧
    (handleExecute p env st).pollRequests
      = st.pollRequests ++ List.replicate k (mkPollRequest (execCfg p st submittedJob)) := by
  refine ⟨fun st2 rem => pollLoopAux_cancel_step _ env k rem st2 hck, ?_⟩
  rw [handleExecute_run p env st submittedJob hknot hshotErr hshots hvalid hsub hsig hjid]
  obtain ⟨js, hsteps⟩ := pollLoopAux_inProgress_steps (execCfg p st submittedJob) env k 0
    (env.maxPollAttempts - k)
    { st with
        isExecuting := true
        isCancelling := false
        error := none
        statusDetail := none
        submitRequests := st.submitRequests ++ [mkSubmitRequest p st]
        jobStatus := some submittedJob
        pendingResumeJob := some (execSnapshot p st submittedJob) }
    (by simpa using hpre)
  rw [show (env.maxPollAttempts - k) + k = env.maxPollAttempts from by omega] at hsteps
  obtain ⟨m, hm⟩ : ∃ m, env.maxPollAttempts - k = m + 1 := ⟨env.maxPollAttempts - k - 1, by omega⟩
  rw [hm] at hsteps
  simp only [pollRuntimeJob]
  rw [hsteps, pollLoopAux_cancel_step _ env (0 + k) m _ (by simpa using hck)]
  simp [finishExecute, outcomeError]

/-- C4 (counterexample): the program text `"s1 s3"` has only tokens of valid
shape and omits generator 2 below its maximum referenced index 3, yet the
Validator's message is the too-few-tokens message, which does not name the
missing index `s2`. -/
theorem validator_short_word_counterexample :
    collectGenerators (splitTokens (jsTrim "s1 s3")) = Except.ok [1, 3] ∧
    validateBraidWordForExecution (some "s1 s3")
      = some "Braid word must contain at least three generators before execution." ∧
    hasSubstring "Braid word must contain at least three generators before execution." "s2"
      = false :=
  ⟨rfl, by decide, by decide⟩

/-- C4 (amended): for a program text whose tokens all have valid shape, with
at least three tokens and at least two distinct generators, whose referenced
set omits some index below the maximum, the Validator fails with the
contiguity message, whose enumerated list names every missing index. -/
theorem validator_names_every_missing_generator (w : String) (gens : List Nat)
    (hcol : collectGenerators (splitTokens (jsTrim w)) = Except.ok gens)
    (hlen : 3 ≤ (splitTokens (jsTrim w)).length)
    (hdis : 2 ≤ gens.dedup.length)
    (hmiss : missingGeneratorNames gens ≠ []) :
    validateBraidWordForExecution (some w)
      = some (contiguityMessage (gens.foldl max 0) (missingGeneratorNames gens)) ∧
    ∀ k, 1 ≤ k → k ≤ gens.foldl max 0 → k ∉ gens →
      s!"s{k}" ∈ missingGeneratorNames gens := by
  constructor
  · have hne : ¬ jsTrim w = "" := by
      intro h
      rw [h] at hlen
      simp [splitTokens, wsTokensAux] at hlen
    simp only [validateBraidWordForExecution, Option.getD_some, hcol, if_neg hne]
    rw [if_neg (by omega : ¬ (splitTokens (jsTrim w)).length < 3)]
    rw [if_neg (by omega : ¬ gens.dedup.length < 2)]
    rw [if_pos hmiss]
  · intro k h1 h2 h3
    unfold missingGeneratorNames
    refine List.mem_map.mpr ⟨k, ?_, rfl⟩
    refine List.mem_filter.mpr ⟨?_, by simpa using h3⟩
    exact List.mem_map.mpr ⟨k - 1, List.mem_range.mpr (by omega), by omega⟩

/-- Any state that holds a result and surfaces an error shows the
previous-result banner, labels the badge with the previous result's job id
and still renders its polynomial text. -/
theorem display_previous (st : CtrlState) (r : Payload) (hr : st.result = some r)
    (he : st.error.isSome = true) :
    showingPreviousResult st = true ∧
    jobIdDisplay st = "Previous Result Job ID: " ++ r.job_id ∧
    jonesPolynomialDisplay st = some (r.jones_polynomial.getD "") := by
  have hv : (visibleError st).isSome = true := by
    unfold visibleError
    cases hsi : st.shotInputError with
    | none => simpa using he
    | some e => simp
  have hshow : showingPreviousResult st = true := by
    simp [showingPreviousResult, hr, hv]
  refine ⟨hshow, ?_, ?_⟩
  · simp [jobIdDisplay, hr, hshow]
  · simp [jonesPolynomialDisplay, hr]

/-- `finishExecute` wrapped around any poll-loop run out of an errorless
state either preserves the stored result or surfaces no error. -/
theorem finishExecute_poll_result_or_no_error (cfg : PollArgs) (env : PollEnv) (n : Nat)
    (stB : CtrlState) (hB : stB.error = none) :
    (finishExecute (pollLoopAux cfg env 0 n stB).1
        (outcomeError (pollLoopAux cfg env 0 n stB).2)).result = stB.result ∨
    (finishExecute (pollLoopAux cfg env 0 n stB).1
        (outcomeError (pollLoopAux cfg env 0 n stB).2)).error = none := by
  have hframe := pollLoopAux_frame cfg env n 0 stB
  cases ho : (pollLoopAux cfg env 0 n stB).2 with
  | completed =>
    right
    simp [finishExecute, outcomeError, hframe.1, hB]
  | cancelled =>
    right
    simp [finishExecute, outcomeError, hframe.1, hB]
  | pollHttpError m =>
    left
    have hres := hframe.2.2.2 (by rw [ho]; simp)
    simp [finishExecute, outcomeError, hres]
  | jobFailed m =>
    left
    have hres := hframe.2.2.2 (by rw [ho]; simp)
    simp [finishExecute, outcomeError, hres]
  | unexpectedStatus m =>
    left
    have hres := hframe.2.2.2 (by rw [ho]; simp)
    simp [finishExecute, outcomeError, hres]
  | timedOut =>
    left
    have hres := hframe.2.2.2 (by rw [ho]; simp)
    simp [finishExecute, outcomeError, hres]

/-- `handleExecute` either leaves the stored result untouched or ends with
no surfaced error: no error path writes the result. -/
theorem handleExecute_result_or_no_error (p : ExecProps) (env : PollEnv) (st : CtrlState) :
    (handleExecute p env st).result = st.result ∨ (handleExecute p env st).error = none := by
  rw [handleExecute]
  by_cases hknot : isCompiledOrLater (p.activeKnot.map KnotData.status) = true
  all_goals simp only [hknot]
  case neg => simp
  by_cases hguard : st.shotInputError.isSome = true ∨ jsTrim st.shotsInput = ""
  all_goals simp only [hguard]
  case pos => simp
  cases hval : validateBraidWordForExecution (p.activeKnot.map KnotData.braidWord) with
  | some msg => simp
  | none =>
    simp only []
    cases hsr : env.submitResponse with
    | httpError code detail => simp [finishExecute]
    | ok submittedJob =>
      simp only []
      have hafter : ∀ st1 : CtrlState, st1.error = none → st1.result = st.result →
          (handleExecuteAfterSignature p env st1 submittedJob).result = st.result ∨
          (handleExecuteAfterSignature p env st1 submittedJob).error = none := by
        intro st1 herr hres
        rw [handleExecuteAfterSignature]
        by_cases hjid : submittedJob.job_id = ""
        all_goals simp only [hjid]
        case pos => simp [finishExecute, hres]
        simp only [if_neg hjid, pollRuntimeJob]
        have hor := finishExecute_poll_result_or_no_error
          (execCfg p
            { st1 with
              jobStatus := some submittedJob
              pendingResumeJob := some (execSnapshot p
                { st1 with jobStatus := some submittedJob } submittedJob) }
            submittedJob)
          env env.maxPollAttempts
          { st1 with
            jobStatus := some submittedJob
            pendingResumeJob := some (execSnapshot p
              { st1 with jobStatus := some submittedJob } submittedJob) }
          (by simpa using herr)
        simpa [hres] using hor
      cases hgen : p.activeKnot.bind
          (fun k => k.circuitSummary.map KnotCircuitSummary.signature) with
      | none => exact hafter _ (by simp) (by simp)
      | some g =>
        cases hsubsig : submittedJob.circuit_summary.map KnotCircuitSummary.signature with
        | none => exact hafter _ (by simp) (by simp)
        | some s =>
          by_cases hmis : g ≠ "" ∧ s ≠ "" ∧ g ≠ s
          · simp only [if_pos hmis]
            left
            simp [finishExecute]
          · simp only [if_neg hmis]
            exact hafter _ (by simp) (by simp)

/-- `handleResumePendingJob` either leaves the stored result untouched or
ends with no surfaced error. -/
theorem handleResume_result_or_no_error (p : ExecProps) (env : PollEnv) (st : CtrlState) :
    (handleResumePendingJob p env st).result = st.result ∨
    (handleResumePendingJob p env st).error = none := by
  cases hsnap : st.pendingResumeJob with
  | none =>
    left
    rw [handleResumePendingJob, hsnap]
  | some snap =>
    rw [handleResumePendingJob_run p env st snap hsnap]
    simp only [pollRuntimeJob]
    have hframe := pollLoopAux_frame (resumeCfg p snap) env env.maxPollAttempts 0
      { st with
        runtimeChannel := snap.runtime_channel
        runtimeInstance := snap.runtime_instance.getD ""
        jobStatus := some
          { job_id := snap.job_id, backend := some snap.backend_name, status := "SUBMITTED" }
        error := none
        statusDetail := none
        isExecuting := true }
    cases ho : (pollLoopAux (resumeCfg p snap) env 0 env.maxPollAttempts
        { st with
          runtimeChannel := snap.runtime_channel
          runtimeInstance := snap.runtime_instance.getD ""
          jobStatus := some
            { job_id := snap.job_id, backend := some snap.backend_name, status := "SUBMITTED" }
          error := none
          statusDetail := none
          isExecuting := true }).2 with
    | completed =>
      right
      simpa [outcomeError] using hframe.1
    | cancelled =>
      right
      simpa [outcomeError] using hframe.1
    | pollHttpError m =>
      left
      have hres := hframe.2.2.2 (by rw [ho]; simp)
      simpa [outcomeError] using hres
    | jobFailed m =>
      left
      have hres := hframe.2.2.2 (by rw [ho]; simp)
      simpa [outcomeError] using hres
    | unexpectedStatus m =>
      left
      have hres := hframe.2.2.2 (by rw [ho]; simp)
      simpa [outcomeError] using hres
    | timedOut =>
      left
      have hres := hframe.2.2.2 (by rw [ho]; simp)
      simpa [outcomeError] using hres

/-- C8: once a successful `ExperimentResult` is stored, any later failing
operation — a submit attempt failing anywhere (validation, server error,
signature mismatch, job failure, timeout) or a failing resume — leaves that
result stored and still exposed, with the previous-result banner, the
previous result's job id in the badge and its polynomial text rendered,
alongside the new error. -/
theorem failing_op_keeps_previous_result (p : ExecProps) (env : PollEnv) (st : CtrlState)
    (r : Payload) (hres : st.result = some r) :
    (∀ e, (handleExecute p env st).error = some e →
      (handleExecute p env st).result = some r ∧
      showingPreviousResult (handleExecute p env st) = true ∧
      jobIdDisplay (handleExecute p env st) = "Previous Result Job ID: " ++ r.job_id ∧
      jonesPolynomialDisplay (handleExecute p env st) = some (r.jones_polynomial.getD "")) ∧
    (∀ e, (handleResumePendingJob p env st).error = some e →
      (handleResumePendingJob p env st).result = some r ∧
      showingPreviousResult (handleResumePendingJob p env st) = true ∧
      jobIdDisplay (handleResumePendingJob p env st) = "Previous Result Job ID: " ++ r.job_id ∧
      jonesPolynomialDisplay (handleResumePendingJob p env st)
        = some (r.jones_polynomial.getD "")) := by
  constructor
  · intro e he
    have hr : (handleExecute p env st).result = some r := by
      rcases handleExecute_result_or_no_error p env st with h | h
      · rw [h, hres]
      · rw [h] at he
        exact absurd he (by simp)
    have hdisp := display_previous (handleExecute p env st) r hr (by simp [he])
    exact ⟨hr, hdisp⟩
  · intro e he
    have hr : (handleResumePendingJob p env st).result = some r := by
      rcases handleResume_result_or_no_error p env st with h | h
      · rw [h, hres]
      · rw [h] at he
        exact absurd he (by simp)
    have hdisp := display_previous (handleResumePendingJob p env st) r hr (by simp [he])
    exact ⟨hr, hdisp⟩

/-- C5 (counterexample): against a server answering `PAUSED` with the detail
`"Job is paused."`, the loop's error carries the server detail, not the
generic unexpected-status message — while it does stop after one poll and
clear the snapshot. -/
theorem unexpected_status_detail_counterexample :
    (pollRuntimeJob exampleCfg pausedEnv exampleState).2
      = PollOutcome.unexpectedStatus "Job is paused." ∧
    "Job is paused." ≠ unexpectedStatusMessage "PAUSED" ∧
    (pollRuntimeJob exampleCfg pausedEnv exampleState).1.pendingResumeJob = none ∧
    (pollRuntimeJob exampleCfg pausedEnv exampleState).1.pollRequests.length
      = exampleState.pollRequests.length + 1 :=
  ⟨by decide, by decide, by decide, by decide⟩

/-- C1 witness: the timeout run evaluated on the concrete fixtures. -/
theorem submit_timeout_exhausts_budget_witness :
    (handleExecute exampleProps inProgressEnv exampleState).submitRequests.length
      = exampleState.submitRequests.length + 1 ∧
    (handleExecute exampleProps inProgressEnv exampleState).pollRequests
      = exampleState.pollRequests
        ++ List.replicate inProgressEnv.maxPollAttempts
          (mkPollRequest (execCfg exampleProps exampleState queuedPayload)) ∧
    (handleExecute exampleProps inProgressEnv exampleState).pendingResumeJob
      = some
          { job_id := queuedPayload.job_id
            backend_name := orElseStr queuedPayload.backend exampleProps.targetBackend
            runtime_channel := exampleState.runtimeChannel
            runtime_instance :=
              if jsTrim exampleState.runtimeInstance = "" then none
              else some (jsTrim exampleState.runtimeInstance) } ∧
    (handleExecute exampleProps inProgressEnv exampleState).error = some timedOutMessage ∧
    (∀ s, timedOutMessage ≠ runtimeFailedMessage s) :=
  submit_timeout_exhausts_budget exampleProps inProgressEnv exampleState queuedPayload
    (by decide) rfl (by decide) (by decide) rfl
    (by intro g s hg hs; simp [exampleProps, exampleKnot] at hg)
    (by decide)
    (fun i _ => ⟨rfl, queuedPayload, rfl, by decide⟩)

/-- C2 witness: the [queued, running, completed] run evaluated on the
concrete fixtures. -/
theorem poll_sequence_queued_running_completed_witness :
    (handleExecute exampleProps completeSeqEnv exampleState).pollRequests
      = exampleState.pollRequests
        ++ List.replicate 3 (mkPollRequest (execCfg exampleProps exampleState queuedPayload)) ∧
    (handleExecute exampleProps completeSeqEnv exampleState).result = some completedPayload ∧
    (handleExecute exampleProps completeSeqEnv exampleState).pendingResumeJob = none ∧
    (handleExecute exampleProps completeSeqEnv exampleState).completionCalls
      = exampleState.completionCalls + 1 ∧
    (handleExecute exampleProps completeSeqEnv exampleState).error = none :=
  poll_sequence_queued_running_completed exampleProps completeSeqEnv exampleState
    queuedPayload queuedPayload runningPayload completedPayload
    (by decide) rfl (by decide) (by decide) rfl
    (by intro g s hg hs; simp [exampleProps, exampleKnot] at hg)
    (by decide)
    (fun i _ => rfl)
    rfl rfl rfl rfl rfl (by decide) rfl (by decide)

/-- C3 witness: the signature-mismatch run evaluated on the concrete
fixtures. -/
theorem signature_mismatch_blocks_polling_witness :
    (handleExecute sigProps sigEnv exampleState).error
      = some ("Generated circuit signature " ++ "sig-a" ++ " does not match submitted signature "
          ++ "sig-b" ++ ".") ∧
    (handleExecute sigProps sigEnv exampleState).pollRequests = exampleState.pollRequests ∧
    (handleExecute sigProps sigEnv exampleState).result = exampleState.result ∧
    (handleExecute sigProps sigEnv exampleState).completionCalls
      = exampleState.completionCalls :=
  signature_mismatch_blocks_polling sigProps sigEnv exampleState sigSubmitJob "sig-a" "sig-b"
    (by decide) rfl (by decide) (by decide) rfl rfl rfl
    (by decide) (by decide) (by decide)

/-- C4 witness: the amended naming property evaluated on the concrete word
`"s1 s3 s1 s3"` (missing generator 2 below maximum 3). -/
theorem validator_names_every_missing_generator_witness :
    validateBraidWordForExecution (some "s1 s3 s1 s3")
      = some (contiguityMessage (List.foldl max 0 [1, 3, 1, 3])
          (missingGeneratorNames [1, 3, 1, 3])) ∧
    ∀ k, 1 ≤ k → k ≤ List.foldl max 0 [1, 3, 1, 3] → k ∉ [1, 3, 1, 3] →
      s!"s{k}" ∈ missingGeneratorNames [1, 3, 1, 3] :=
  validator_names_every_missing_generator "s1 s3 s1 s3" [1, 3, 1, 3]
    rfl (by decide) (by decide) (by decide)

/-- C5 witness: the amended unexpected-status property evaluated on the
concrete `PAUSED` response. -/
theorem unexpected_status_hard_failure_witness :
    pollLoopAux exampleCfg pausedEnv 0 (4 + 1) exampleState
      = ({ exampleState with
            pollRequests := exampleState.pollRequests ++ [mkPollRequest exampleCfg]
            jobStatus := some pausedPayload
            pendingResumeJob := none },
          PollOutcome.unexpectedStatus
            (detailOr pausedPayload.detail (unexpectedStatusMessage pausedPayload.status))) :=
  unexpected_status_hard_failure exampleCfg pausedEnv 0 4 exampleState pausedPayload
    rfl rfl (by decide) (by decide) (by decide)

/-- C6 witness: the cancellation run evaluated on the concrete fixtures (the
flag raised before attempt 1). -/
theorem cancel_flag_silent_stop_witness :
    (∀ (st2 : CtrlState) (rem : Nat),
      pollLoopAux (execCfg exampleProps exampleState queuedPayload) cancelEnv 1 (rem + 1) st2
        = (st2, PollOutcome.cancelled)) ∧
    (handleExecute exampleProps cancelEnv exampleState).error = none ∧
    (handleExecute exampleProps cancelEnv exampleState).pendingResumeJob
      = some (execSnapshot exampleProps exampleState queuedPayload) ∧
    (handleExecute exampleProps cancelEnv exampleState).pollRequests
      = exampleState.pollRequests
        ++ List.replicate 1 (mkPollRequest (execCfg exampleProps exampleState queuedPayload)) :=
  cancel_flag_silent_stop exampleProps cancelEnv exampleState queuedPayload 1
    (by decide) rfl (by decide) (by decide) rfl
    (by intro g s hg hs; simp [exampleProps, exampleKnot] at hg)
    (by decide) (by decide)
    (by intro i hi; interval_cases i; exact ⟨rfl, queuedPayload, rfl, by decide⟩)
    rfl

/-- C7 witness: the resume run evaluated on the concrete fixtures (UI state
holding values that differ from the snapshot). -/
theorem resume_uses_snapshot_and_clears_witness :
    (handleResumePendingJob exampleProps resumeEnv resumeState).submitRequests
      = resumeState.submitRequests ∧
    (handleResumePendingJob exampleProps resumeEnv resumeState).pollRequests
      = resumeState.pollRequests
        ++ List.replicate (1 + 1) (mkPollRequest (resumeCfg exampleProps exampleSnapshot)) ∧
    mkPollRequest (resumeCfg exampleProps exampleSnapshot)
      = { job_id := exampleSnapshot.job_id
          runtime_channel :=
            (readRuntimePayload exampleSnapshot.runtime_channel
              (exampleSnapshot.runtime_instance.getD "")).1
          runtime_instance :=
            (readRuntimePayload exampleSnapshot.runtime_channel
              (exampleSnapshot.runtime_instance.getD "")).2 } ∧
    (handleResumePendingJob exampleProps resumeEnv resumeState).pendingResumeJob = none ∧
    (handleResumePendingJob exampleProps resumeEnv resumeState).result
      = some completedPayload ∧
    (handleResumePendingJob exampleProps resumeEnv resumeState).error = none :=
  resume_uses_snapshot_and_clears exampleProps resumeEnv resumeState exampleSnapshot 1
    completedPayload rfl
    (by intro i hi; interval_cases i; exact ⟨rfl, queuedPayload, rfl, by decide⟩)
    rfl rfl (by decide) rfl (by decide)

/-- C8 witness: the frame property instantiated on a state holding the
concrete stored result. -/
theorem failing_op_keeps_previous_result_witness :
    (∀ e, (handleExecute exampleProps inProgressEnv resultState).error = some e →
      (handleExecute exampleProps inProgressEnv resultState).result = some completedPayload ∧
      showingPreviousResult (handleExecute exampleProps inProgressEnv resultState) = true ∧
      jobIdDisplay (handleExecute exampleProps inProgressEnv resultState)
        = "Previous Result Job ID: " ++ completedPayload.job_id ∧
      jonesPolynomialDisplay (handleExecute exampleProps inProgressEnv resultState)
        = some (completedPayload.jones_polynomial.getD "")) ∧
    (∀ e, (handleResumePendingJob exampleProps inProgressEnv resultState).error = some e →
      (handleResumePendingJob exampleProps inProgressEnv resultState).result
        = some completedPayload ∧
      showingPreviousResult (handleResumePendingJob exampleProps inProgressEnv resultState)
        = true ∧
      jobIdDisplay (handleResumePendingJob exampleProps inProgressEnv resultState)
        = "Previous Result Job ID: " ++ completedPayload.job_id ∧
      jonesPolynomialDisplay (handleResumePendingJob exampleProps inProgressEnv resultState)
        = some (completedPayload.jones_polynomial.getD "")) :=
  failing_op_keeps_previous_result exampleProps inProgressEnv resultState completedPayload rfl

/-- C9 witness: a submit click on the in-flight fixture state. -/
theorem inflight_submit_rejected_witness :
    clickExecute exampleProps inProgressEnv busyState = busyState ∧
    (clickExecute exampleProps inProgressEnv busyState).submitRequests
      = busyState.submitRequests :=
  inflight_submit_rejected exampleProps inProgressEnv busyState rfl rfl

/-- C10 witness: the bare-`COMPLETED` response evaluated on the concrete
fixtures. -/
theorem completed_without_counts_is_unexpected_witness :
    pollLoopAux exampleCfg bareEnv 0 (2 + 1) exampleState
      = ({ exampleState with
            pollRequests := exampleState.pollRequests ++ [mkPollRequest exampleCfg]
            jobStatus := some bareCompletedPayload
            pendingResumeJob := none },
          PollOutcome.unexpectedStatus
            (detailOr bareCompletedPayload.detail
              (unexpectedStatusMessage bareCompletedPayload.status))) ∧
    (pollLoopAux exampleCfg bareEnv 0 (2 + 1) exampleState).1.result = exampleState.result ∧
    (pollLoopAux exampleCfg bareEnv 0 (2 + 1) exampleState).1.completionCalls
      = exampleState.completionCalls :=
  completed_without_counts_is_unexpected exampleCfg bareEnv 0 2 exampleState
    bareCompletedPayload rfl rfl rfl rfl

end QKnot
